import Mathlib

/-!
Verification of the Family-Health-Keeper backend (`src/backend_new`).

The embedded code comprises:
* `app/api/v1/endpoints/ai_proxy.py` — the AI proxy handlers
  `generate_health_insights` and `summarize_medical_history`;
* `app/core/config.py` — the `Settings` structure, the CORS-origins
  validator `assemble_cors_origins`, and the memoized `get_settings`;
* `app/main.py` — the `health_check` handler.

Python effects are made explicit: the outcome of the outbound HTTP call is a
parameter of the handler, exceptions are an `Except` value, the process
environment is a function `String → Option String`, and the `lru_cache` on
`get_settings` is explicit state passing of an optional cached value.
-/

/-- JSON values, as relayed opaquely by the proxy handler. -/
inductive Json where
  | null : Json
  | bool (b : Bool) : Json
  | num (n : Int) : Json
  | str (s : String) : Json
  | arr (xs : List Json) : Json
  | obj (kvs : List (String × Json)) : Json

/-- The caller-supplied `patient_data` / `medical_data` dict.  The handlers
use it only through Python string interpolation (the f-string), so it is
represented by its Python string rendering `pyStr`. -/
structure PData where
  pyStr : String
deriving DecidableEq

/-- The process environment, as read by `os.getenv`: a partial map from
variable names to values. -/
def EnvMap : Type := String → Option String

/-- Python rendering of an `os.getenv` result inside an f-string:
a missing variable renders as the text `None`. -/
def pyOptStr : Option String → String
  | some s => s
  | none => "None"

/-- Exceptions that can arise inside the handler's `try` block: a raised
`fastapi.HTTPException`, or a network-level error from the `httpx` call. -/
inductive Exc where
  | http (status_code : Nat) (detail : String) : Exc
  | net (msg : String) : Exc
deriving DecidableEq

/-- Python's `str(e)`.  Starlette's `HTTPException.__str__` renders as
`"<status_code>: <detail>"`; a network exception renders as its message. -/
def Exc.strRep : Exc → String
  | .http s d => toString s ++ ": " ++ d
  | .net m => m

/-- The upstream AI service's reply: an HTTP status code and a JSON body
(what `response.status_code` and `response.json()` observe). -/
structure UpstreamResponse where
  status_code : Nat
  body : Json

/-- Outcome of the outbound `client.post(...)` call: either a response came
back, or the call itself raised a network-level exception. -/
inductive CallResult where
  | success (resp : UpstreamResponse) : CallResult
  | netError (msg : String) : CallResult

/-- The outbound request built by `generate_health_insights` before the
`client.post` call: the hardcoded URL, the `Authorization` header, and the
`text` field embedded in the JSON body. -/
structure OutboundRequest where
  url : String
  authHeader : String
  bodyText : String
deriving DecidableEq

/-- Construction of the outbound request, from `ai_proxy.py` lines 27–38:
`headers={"Authorization": f"Bearer {os.getenv('GEMINI_API_KEY')}"}` and a
body whose `text` is the f-string
`f"Generate health insights for patient: {patient_data}"`.
The handler reads the key from the environment only; it never touches the
`Settings` structure (the module does not import it). -/
def buildRequest (env : EnvMap) (patient_data : PData) : OutboundRequest :=
  { url := "https://generativelanguage.googleapis.com/v1beta/models/gemini-2.5-flash:generateContent"
  , authHeader := "Bearer " ++ pyOptStr (env "GEMINI_API_KEY")
  , bodyText := "Generate health insights for patient: " ++ patient_data.pyStr }

/-- The nested JSON body `{"contents": [{"parts": [{"text": ...}]}]}` sent
upstream. -/
def buildRequestJson (env : EnvMap) (patient_data : PData) : Json :=
  .obj [("contents", .arr [.obj [("parts",
    .arr [.obj [("text", .str (buildRequest env patient_data).bodyText)]])]])]

/-- The body of the `try` block of `generate_health_insights`: awaiting the
outbound call may raise a network exception; a non-200 status raises
`HTTPException(status_code=response.status_code, detail="Failed to generate insights")`;
a 200 status returns `response.json()`. -/
def tryGenerateInsights (call : CallResult) : Except Exc Json :=
  match call with
  | .netError m => .error (.net m)
  | .success resp =>
    if resp.status_code = 200 then
      .ok resp.body
    else
      .error (.http resp.status_code "Failed to generate insights")

/-- What the endpoint yields to its caller: a 200 JSON response, or a raised
`HTTPException` with a status code and detail string. -/
inductive HandlerResult where
  | jsonOk (body : Json) : HandlerResult
  | httpError (status_code : Nat) (detail : String) : HandlerResult

/-- The handler `generate_health_insights`: the whole `try` body runs under
`except Exception as e: raise HTTPException(status_code=500, detail=str(e))`,
which catches every exception — including the `HTTPException` raised in the
non-200 branch, since `HTTPException` is an `Exception` subclass. -/
def generate_health_insights (call : CallResult) : HandlerResult :=
  match tryGenerateInsights call with
  | .ok j => .jsonOk j
  | .error e => .httpError 500 e.strRep

/-- The body of the `try` block of `summarize_medical_history`: a bare
`pass`, which never raises and yields `None` (here `Unit`). -/
def trySummarize (_medical_data : PData) : Except Exc Unit :=
  .ok ()

/-- The handler `summarize_medical_history`: the `try` body followed by the
same `except Exception` clause re-raising as HTTP 500. -/
def summarize_medical_history (medical_data : PData) : Except Exc Unit :=
  match trySummarize medical_data with
  | .ok u => .ok u
  | .error e => .error (.http 500 e.strRep)

/-- A string contains another as a contiguous substring. -/
def strContains (s sub : String) : Prop := ∃ a b, s = a ++ sub ++ b

/-- Python values as seen by the pydantic validator: a string, a list (of
origin strings), or anything else. -/
inductive PyValue where
  | str (s : String) : PyValue
  | list (xs : List String) : PyValue
  | other (tag : String) : PyValue
deriving DecidableEq

/-- Python's `str.startswith`, on the character lists of the strings. -/
def pyStartsWithL : List Char → List Char → Bool
  | [], _ => true
  | _ :: _, [] => false
  | p :: ps, c :: cs => p == c && pyStartsWithL ps cs

/-- Python's `s.startswith(pre)`. -/
def pyStartsWith (s pre : String) : Bool :=
  pyStartsWithL pre.toList s.toList

/-- Python's `s.split(",")`, accumulating the current piece (reversed). -/
def pySplitCommaL : List Char → List Char → List String
  | acc, [] => [String.mk acc.reverse]
  | acc, c :: cs =>
    if c = ',' then String.mk acc.reverse :: pySplitCommaL [] cs
    else pySplitCommaL (c :: acc) cs

/-- Python's `s.split(",")`: split on every comma, keeping empty pieces. -/
def pySplitComma (s : String) : List String :=
  pySplitCommaL [] s.toList

/-- Characters stripped by Python's `str.strip()`. -/
def isPySpace (c : Char) : Bool :=
  c = ' ' || c = '\t' || c = '\n' || c = '\r' || c = '\x0b' || c = '\x0c'

/-- Python's `str.strip()`: remove leading and trailing whitespace. -/
def pyStrip (s : String) : String :=
  String.mk (((s.toList.dropWhile isPySpace).reverse.dropWhile isPySpace).reverse)

/-- The validator `assemble_cors_origins` from `config.py` lines 46–52:
a string not starting with `[` is comma-split and each piece stripped; any
other string, and any list, is returned unchanged; anything else raises
`ValueError(v)`. -/
def assemble_cors_origins : PyValue → Except String PyValue
  | .str s =>
    if !(pyStartsWith s "[") then
      .ok (.list ((pySplitComma s).map pyStrip))
    else
      .ok (.str s)
  | .list xs => .ok (.list xs)
  | .other t => .error t

/-- The `Settings` structure from `config.py`, with the source's field
defaults.  `DATABASE_URL` and `SECRET_KEY` have no default and are required
from the environment. -/
structure Settings where
  PROJECT_NAME : String := "Family Health Keeper"
  VERSION : String := "1.0.0"
  API_V1_STR : String := "/api/v1"
  DATABASE_URL : String
  TEST_DATABASE_URL : Option String := none
  SECRET_KEY : String
  ALGORITHM : String := "HS256"
  ACCESS_TOKEN_EXPIRE_MINUTES : Int := 30
  REDIS_URL : String := "redis://localhost:6379/0"
  GOOGLE_API_KEY : Option String := none
  UPLOAD_DIR : String := "uploads"
  MAX_FILE_SIZE : Int := 10485760
  SMTP_TLS : Bool := true
  SMTP_PORT : Option Int := none
  SMTP_HOST : Option String := none
  SMTP_USER : Option String := none
  SMTP_PASSWORD : Option String := none
  BACKEND_CORS_ORIGINS : List String := []
  ALLOWED_HOSTS : List String := ["localhost", "127.0.0.1"]
  LOG_LEVEL : String := "INFO"
deriving DecidableEq

/-- Read an optional string field with a default. -/
def readStr (env : EnvMap) (name dflt : String) : String :=
  (env name).getD dflt

/-- Read a required string field; pydantic raises a validation error when it
is absent from the environment. -/
def readReq (env : EnvMap) (name : String) : Except String String :=
  match env name with
  | some v => .ok v
  | none => .error ("field required: " ++ name)

/-- Read an integer field with a default. -/
def readIntD (env : EnvMap) (name : String) (dflt : Int) : Except String Int :=
  match env name with
  | none => .ok dflt
  | some v =>
    match v.toInt? with
    | some n => .ok n
    | none => .error ("value is not a valid integer: " ++ name)

/-- Read an optional integer field. -/
def readOptInt (env : EnvMap) (name : String) : Except String (Option Int) :=
  match env name with
  | none => .ok none
  | some v =>
    match v.toInt? with
    | some n => .ok (some n)
    | none => .error ("value is not a valid integer: " ++ name)

/-- Read a boolean field with a default (pydantic's accepted spellings,
abridged). -/
def readBoolD (env : EnvMap) (name : String) (dflt : Bool) : Except String Bool :=
  match env name with
  | none => .ok dflt
  | some v =>
    if v = "true" || v = "True" || v = "1" || v = "on" || v = "yes" then .ok true
    else if v = "false" || v = "False" || v = "0" || v = "off" || v = "no" then .ok false
    else .error ("value could not be parsed to a boolean: " ++ name)

/-- Read the CORS origin list through the `assemble_cors_origins` validator
(`pre=True`).  A bracketed string would be handed to pydantic's JSON
coercion, which is outside the embedded code and modelled as an error; no
claim depends on that path. -/
def readCors (env : EnvMap) : Except String (List String) :=
  match env "BACKEND_CORS_ORIGINS" with
  | none => .ok []
  | some v =>
    match assemble_cors_origins (.str v) with
    | .ok (.list xs) => .ok xs
    | .ok (.str s) => .error ("unmodelled JSON origin literal: " ++ s)
    | .ok (.other t) => .error t
    | .error e => .error e

/-- Read a string-list field with a default (comma-separated in the
environment). -/
def readListD (env : EnvMap) (name : String) (dflt : List String)
    : List String :=
  match env name with
  | none => dflt
  | some v => (pySplitComma v).map pyStrip

/-- `Settings()`: pydantic `BaseSettings` construction, reading each field
from the environment with the source's defaults. -/
def mkSettings (env : EnvMap) : Except String Settings := do
  let dbUrl ← readReq env "DATABASE_URL"
  let secretKey ← readReq env "SECRET_KEY"
  let tokenExpire ← readIntD env "ACCESS_TOKEN_EXPIRE_MINUTES" 30
  let maxFileSize ← readIntD env "MAX_FILE_SIZE" 10485760
  let smtpTls ← readBoolD env "SMTP_TLS" true
  let smtpPort ← readOptInt env "SMTP_PORT"
  let corsOrigins ← readCors env
  .ok
    { PROJECT_NAME := readStr env "PROJECT_NAME" "Family Health Keeper"
    , VERSION := readStr env "VERSION" "1.0.0"
    , API_V1_STR := readStr env "API_V1_STR" "/api/v1"
    , DATABASE_URL := dbUrl
    , TEST_DATABASE_URL := env "TEST_DATABASE_URL"
    , SECRET_KEY := secretKey
    , ALGORITHM := readStr env "ALGORITHM" "HS256"
    , ACCESS_TOKEN_EXPIRE_MINUTES := tokenExpire
    , REDIS_URL := readStr env "REDIS_URL" "redis://localhost:6379/0"
    , GOOGLE_API_KEY := env "GOOGLE_API_KEY"
    , UPLOAD_DIR := readStr env "UPLOAD_DIR" "uploads"
    , MAX_FILE_SIZE := maxFileSize
    , SMTP_TLS := smtpTls
    , SMTP_PORT := smtpPort
    , SMTP_HOST := env "SMTP_HOST"
    , SMTP_USER := env "SMTP_USER"
    , SMTP_PASSWORD := env "SMTP_PASSWORD"
    , BACKEND_CORS_ORIGINS := corsOrigins
    , ALLOWED_HOSTS := readListD env "ALLOWED_HOSTS" ["localhost", "127.0.0.1"]
    , LOG_LEVEL := readStr env "LOG_LEVEL" "INFO" }

/-- The `lru_cache` state of the zero-argument `get_settings`: the single
memoized result, if any. -/
structure CacheState where
  cached : Option Settings
deriving DecidableEq

/-- `get_settings` under `@lru_cache()`: with a cached value present it is
returned as-is without touching the environment; otherwise `Settings()` is
constructed and stored.  The returned `Bool` records whether this call
performed the construction. -/
def get_settings (env : EnvMap) (st : CacheState)
    : Except String (Settings × CacheState × Bool) :=
  match st.cached with
  | some s => .ok (s, st, false)
  | none =>
    match mkSettings env with
    | .ok s => .ok (s, ⟨some s⟩, true)
    | .error e => .error e

/-- External-world state a handler could in principle consult: database and
upstream-service availability. -/
structure World where
  dbAvailable : Bool
  upstreamAvailable : Bool
deriving DecidableEq

/-- The liveness response body. -/
structure HealthBody where
  status : String
  timestamp : String
  version : String
deriving DecidableEq

/-- The `health_check` handler from `main.py` lines 56–62: it returns a
fixed dict (HTTP 200) whose only non-constant field is `settings.VERSION`;
the world state is never consulted. -/
def health_check (s : Settings) (_w : World) : Nat × HealthBody :=
  (200, { status := "OK", timestamp := "2024-01-01T00:00:00Z", version := s.VERSION })

/-- A concrete environment carrying only the two required fields, for
instantiating the memoization theorem. -/
def demoEnv : EnvMap :=
  fun n => if n = "DATABASE_URL" then some "postgres://db"
           else if n = "SECRET_KEY" then some "s3cret" else none

/-- The `Settings` value `demoEnv` constructs: the required fields plus
every source default. -/
def demoSettings : Settings :=
  { DATABASE_URL := "postgres://db", SECRET_KEY := "s3cret" }

/-- C1: when the upstream AI service responds with HTTP 200, the handler
`generate_health_insights` returns the upstream response's JSON body
exactly, unchanged. -/
theorem generate_insights_relays_200 (resp : UpstreamResponse)
    (h : resp.status_code = 200) :
    generate_health_insights (.success resp) = .jsonOk resp.body := by
  simp [generate_health_insights, tryGenerateInsights, h]

/-- Witness for C1 at a concrete upstream 200 response. -/
theorem generate_insights_relays_200_witness :
    generate_health_insights (.success ⟨200, Json.null⟩) = .jsonOk Json.null :=
  generate_insights_relays_200 ⟨200, Json.null⟩ rfl

/-- C2, observed behavior at the failing input: for an upstream status 404
the handler does NOT surface 404 with the fixed detail — the `HTTPException`
raised in the non-200 branch is caught by the enclosing `except Exception`
and re-raised as HTTP 500 with the exception's string rendering. -/
theorem generate_insights_non200_yields_500 :
    generate_health_insights (.success ⟨404, Json.null⟩)
      = .httpError 500 "404: Failed to generate insights" := rfl

/-- C3: no error status other than 500 ever escapes the handler, and when
the `try` body raises any exception `e`, the handler yields an
`HTTPException` with status 500 and detail `str(e)`. -/
theorem generate_insights_errors_collapse_to_500 (call : CallResult) :
    (∀ s d, generate_health_insights call = .httpError s d → s = 500) ∧
    (∀ e, tryGenerateInsights call = .error e →
      generate_health_insights call = .httpError 500 e.strRep) := by
  constructor
  · intro s d h
    unfold generate_health_insights at h
    cases hh : tryGenerateInsights call <;> rw [hh] at h <;>
      simp only [HandlerResult.httpError.injEq] at h
    · exact h.1.symm
    · cases h
  · intro e he
    simp [generate_health_insights, he]

/-- Witness for C3 at a concrete non-200 upstream response. -/
theorem generate_insights_errors_collapse_to_500_witness :
    generate_health_insights (.success ⟨404, Json.null⟩)
      = .httpError 500 (Exc.strRep (.http 404 "Failed to generate insights")) :=
  (generate_insights_errors_collapse_to_500 (.success ⟨404, Json.null⟩)).2
    (.http 404 "Failed to generate insights") rfl

/-- C4: a network-level failure of the outbound call yields HTTP 500 whose
detail is the underlying exception's string representation, hence contains
the underlying error text. -/
theorem generate_insights_network_failure (m : String) :
    generate_health_insights (.netError m)
      = .httpError 500 (Exc.strRep (.net m)) ∧
    strContains (Exc.strRep (.net m)) m := by
  refine ⟨rfl, "", "", ?_⟩
  simp [Exc.strRep]

/-- C5: with `GEMINI_API_KEY` set to `k` in the environment at call time,
the outbound request carries `Authorization: Bearer k`; its body text embeds
`patient_data` into the fixed natural-language template; and the request
depends on the environment only through the `GEMINI_API_KEY` entry — in
particular it does not use `Settings.GOOGLE_API_KEY` (the request is built
without any `Settings` argument at all). -/
theorem outbound_request_uses_gemini_env (env : EnvMap) (k : String)
    (pd : PData) (h : env "GEMINI_API_KEY" = some k) :
    (buildRequest env pd).authHeader = "Bearer " ++ k ∧
    (buildRequest env pd).bodyText
      = "Generate health insights for patient: " ++ pd.pyStr ∧
    (∀ env' : EnvMap, env' "GEMINI_API_KEY" = env "GEMINI_API_KEY" →
      buildRequest env' pd = buildRequest env pd) := by
  refine ⟨?_, rfl, ?_⟩
  · simp [buildRequest, h, pyOptStr]
  · intro env' he
    simp [buildRequest, he]

/-- Witness for C5 at a concrete environment and payload. -/
theorem outbound_request_uses_gemini_env_witness :
    (buildRequest (fun n => if n = "GEMINI_API_KEY" then some "secret" else none)
        ⟨"data"⟩).authHeader = "Bearer " ++ "secret" ∧
    (buildRequest (fun n => if n = "GEMINI_API_KEY" then some "secret" else none)
        ⟨"data"⟩).bodyText = "Generate health insights for patient: " ++ "data" ∧
    (∀ env' : EnvMap,
      env' "GEMINI_API_KEY"
        = (fun n => if n = "GEMINI_API_KEY" then some "secret" else none : EnvMap)
            "GEMINI_API_KEY" →
      buildRequest env' ⟨"data"⟩
        = buildRequest
            (fun n => if n = "GEMINI_API_KEY" then some "secret" else none)
            ⟨"data"⟩) :=
  outbound_request_uses_gemini_env
    (fun n => if n = "GEMINI_API_KEY" then some "secret" else none)
    "secret" ⟨"data"⟩ rfl

/-- C6: the validator maps `"http://a.com,http://b.com"` to the ordered
two-element list, returns any list unchanged, and raises `ValueError` on
every value that is neither a string nor a list. -/
theorem assemble_cors_origins_contract :
    assemble_cors_origins (.str "http://a.com,http://b.com")
      = .ok (.list ["http://a.com", "http://b.com"]) ∧
    (∀ xs : List String, assemble_cors_origins (.list xs) = .ok (.list xs)) ∧
    (∀ t : String, assemble_cors_origins (.other t) = .error t) :=
  ⟨rfl, fun _ => rfl, fun _ => rfl⟩

/-- C7: a string input not starting with `[` is split on commas with each
element stripped of surrounding whitespace; a string starting with `[` is
returned unchanged. -/
theorem assemble_cors_origins_string_cases (s : String) :
    (pyStartsWith s "[" = false →
      assemble_cors_origins (.str s)
        = .ok (.list ((pySplitComma s).map pyStrip))) ∧
    (pyStartsWith s "[" = true →
      assemble_cors_origins (.str s) = .ok (.str s)) := by
  constructor <;> intro h <;> simp [assemble_cors_origins, h]

/-- Witness for C7 on a plain comma string and on a bracketed string. -/
theorem assemble_cors_origins_string_cases_witness :
    assemble_cors_origins (.str " a ,b")
      = .ok (.list ((pySplitComma " a ,b").map pyStrip)) ∧
    assemble_cors_origins (.str "[x]") = .ok (.str "[x]") :=
  ⟨(assemble_cors_origins_string_cases " a ,b").1 rfl,
   (assemble_cors_origins_string_cases "[x]").2 rfl⟩

/-- C8: for every configuration the liveness handler returns HTTP 200 with
status `"OK"`, the fixed constant timestamp, and the configured version; its
result is independent of database or upstream availability. -/
theorem health_check_contract (s : Settings) (w w' : World) :
    health_check s w
      = (200, { status := "OK", timestamp := "2024-01-01T00:00:00Z"
              , version := s.VERSION }) ∧
    health_check s w = health_check s w' :=
  ⟨rfl, rfl⟩

/-- C9: `summarize_medical_history` always completes successfully returning
no value, and its HTTP-500 exception branch is unreachable. -/
theorem summarize_medical_history_noop (md : PData) :
    summarize_medical_history md = .ok () ∧
    ∀ e, summarize_medical_history md ≠ .error e :=
  ⟨rfl, fun _ h => Except.noConfusion h⟩

/-- C10: `get_settings` is memoized — a successful first call from the
empty cache performs the construction (reading the environment) and stores
the result; thereafter every call, under any environment, returns that very
value without constructing again and leaves the cache unchanged. -/
theorem get_settings_memoized (env env' : EnvMap) (s : Settings)
    (st : CacheState) (b : Bool)
    (h : get_settings env ⟨none⟩ = .ok (s, st, b)) :
    b = true ∧ st = ⟨some s⟩ ∧ get_settings env' st = .ok (s, st, false) := by
  unfold get_settings at h
  cases hm : mkSettings env <;> simp only [hm] at h
  · exact absurd h (fun hc => Except.noConfusion hc)
  · simp only [Except.ok.injEq, Prod.mk.injEq] at h
    obtain ⟨h1, h2, h3⟩ := h
    subst h1
    subst h2
    subst h3
    exact ⟨rfl, rfl, rfl⟩

/-- Witness for C10: the concrete environment `demoEnv` constructs
`demoSettings` on the first call and the second call returns it from the
cache under a different (empty) environment. -/
theorem get_settings_memoized_witness :
    (true : Bool) = true ∧
    (⟨some demoSettings⟩ : CacheState) = ⟨some demoSettings⟩ ∧
    get_settings (fun _ => none) ⟨some demoSettings⟩
      = .ok (demoSettings, ⟨some demoSettings⟩, false) :=
  get_settings_memoized demoEnv (fun _ => none) demoSettings
    ⟨some demoSettings⟩ true rfl
